import Mathlib

/-
Verification development for the Data-microservice repository.

Shallow embedding of the core pipeline:
  * the pluggable ETL processors (backend/app/etl/processors/*.py),
  * the Celery job-execution task (backend/app/tasks.py),
  * the job-submission endpoint (backend/app/api/endpoints/etl.py),
  * the file watcher / stability tracker (backend/app/services/file_watcher.py).

Machine floats are modelled as `Option ℚ` (`none` plays the role of NaN),
tabular data as named columns, and the stateful pieces (database writes,
temp-file lifecycle, watcher bookkeeping sets) as explicit state passing.
-/

namespace DataMicroservice

/-! ## Tabular data model (pandas DataFrame, as used by the processors) -/

/-- A column of a tabular dataset: numeric (float, with `none` for NaN)
or textual (object dtype).  Mirrors the two dtype classes the processors
distinguish via `pd.api.types.is_numeric_dtype`. -/
inductive Column where
  | numeric (vals : List (Option ℚ))
  | text (vals : List String)
deriving Repr, DecidableEq

/-- Number of entries in a column. -/
def Column.length : Column → Nat
  | .numeric vals => vals.length
  | .text vals => vals.length

/-- Whether a column has numeric dtype (`pd.api.types.is_numeric_dtype`). -/
def Column.isNumeric : Column → Bool
  | .numeric _ => true
  | .text _ => false

/-- A pandas DataFrame: an ordered association of column names to columns. -/
structure DataFrame where
  cols : List (String × Column)
deriving Repr, DecidableEq

/-- `df.columns.tolist()`. -/
def DataFrame.columnNames (df : DataFrame) : List String :=
  df.cols.map Prod.fst

/-- Column access `df[c]`, `none` when `c not in df.columns`. -/
def DataFrame.lookupCol (df : DataFrame) (c : String) : Option Column :=
  df.cols.lookup c

/-- `len(df)`: the row count (pandas frames have uniform column length;
we read it off the first column). -/
def DataFrame.numRows (df : DataFrame) : Nat :=
  match df.cols.head? with
  | some (_, c) => c.length
  | none => 0

/-- `df.select_dtypes(include=[np.number]).columns.tolist()`. -/
def DataFrame.numericColumns (df : DataFrame) : List String :=
  df.cols.filterMap (fun nc => if nc.2.isNumeric then some nc.1 else none)

/-- `df.head(n)` (truncate every column to its first `n` entries). -/
def DataFrame.takeRows (df : DataFrame) (n : Nat) : DataFrame :=
  ⟨df.cols.map (fun nc =>
    match nc with
    | (name, .numeric vals) => (name, .numeric (vals.take n))
    | (name, .text vals) => (name, .text (vals.take n)))⟩

/-! ## Rolling-mean processor (backend/app/etl/processors/rolling_mean.py) -/

/-- One entry of `series.rolling(window=w).mean()` at index `i`:
pandas' default is a trailing window of the `w` entries ending at `i`,
with `min_periods` defaulting to `w`, so any window holding fewer than
`w` non-NaN observations yields NaN (`none`).  Requires `w ≥ 1` (pandas
raises for smaller windows; the source never clamps `w`). -/
def rollingEntry (w : Nat) (xs : List (Option ℚ)) (i : Nat) : Option ℚ :=
  let ws := (xs.take (i + 1)).drop (i + 1 - w)
  let vals := ws.filterMap id
  if vals.length < w then none else some (vals.sum / (vals.length : ℚ))

/-- `series.rolling(window=w).mean()` over a whole column. -/
def rollingTrailingMean (w : Nat) (xs : List (Option ℚ)) : List (Option ℚ) :=
  (List.range xs.length).map (rollingEntry w xs)

/-- The parameter bag consumed by the processors and the task
(`parameters: Dict[str, Any]`); absent keys are `none`.  `multiplier`
is any scalar, modelled by whether `float(multiplier)` succeeds. -/
inductive MultVal where
  | num (q : ℚ)
  | invalidStr
deriving Repr, DecidableEq

/-- `float(multiplier)` when the key is present: the numeric value or a
conversion failure. -/
def MultVal.toFloat : MultVal → Option ℚ
  | .num q => some q
  | .invalidStr => none

structure Params where
  windowSize : Option Nat := none
  columns : Option (List String) := none
  column : Option String := none
  customScriptName : Option String := none
  targetColumn : Option String := none
  multiplier : Option MultVal := none
deriving Repr, DecidableEq

namespace RollingMean

/-- `rolling_mean.process(df, params)`:
window size defaults to 5, columns default to all numeric columns; each
listed column that exists and is numeric contributes an appended column
`f"{col}_rolling_mean"` holding the trailing rolling mean; listed columns
that are missing or non-numeric are silently skipped. -/
def process (df : DataFrame) (params : Params) : DataFrame :=
  let windowSize := params.windowSize.getD 5
  let columns := params.columns.getD df.numericColumns
  let newCols := columns.filterMap (fun col =>
    match df.lookupCol col with
    | some (.numeric vals) =>
        some (col ++ "_rolling_mean", Column.numeric (rollingTrailingMean windowSize vals))
    | _ => none)
  ⟨df.cols ++ newCols⟩

end RollingMean

/-! ## Peak-detection processor (backend/app/etl/processors/peak_detection.py) -/

namespace PeakDetection

/-- `peak_detection.process(df, params)`.
The numeric peak finding itself is `scipy.signal.find_peaks`, an external
library the spec leaves out of scope; it is abstracted as the function
argument `findPeaks` acting on the extracted column.  The control flow
around it is translated from the source: with no `column` parameter the
first numeric column is used (error if there is none); a `column`
parameter naming a column absent from the frame is a hard
`ValueError` naming the column.  (The Python message quotes the column
name; quotes are elided here.) -/
def process (findPeaks : Column → Except String (List Nat))
    (df : DataFrame) (params : Params) : Except String (List Nat) :=
  let column? : Except String String :=
    match params.column with
    | some c => .ok c
    | none =>
      match df.numericColumns.head? with
      | some c => .ok c
      | none => .error "No numeric columns found in the dataframe"
  match column? with
  | .error m => .error m
  | .ok column =>
    match df.lookupCol column with
    | none => .error ("Column " ++ column ++ " not found in the dataframe")
    | some col => findPeaks col

end PeakDetection

/-! ## Data-quality processor (backend/app/etl/processors/data_quality.py) -/

/-- The shape of the metrics dict returned by `data_quality.process`.
The per-column statistics (missing counts, min/max/mean, …) are numeric
internals outside every claim; the structural fields the control flow
produces are kept. -/
structure DataQualityMetrics where
  rowCount : Nat
  columnCount : Nat
  assessedColumns : List String
deriving Repr, DecidableEq

namespace DataQuality

/-- `data_quality.process(df, params)`: columns default to all columns;
an explicit list is filtered to the columns that exist (missing names are
dropped, not an error). -/
def process (df : DataFrame) (params : Params) : DataQualityMetrics :=
  let columns :=
    match params.columns with
    | none => df.columnNames
    | some cs => cs.filter (fun c => (df.lookupCol c).isSome)
  { rowCount := df.numRows
    columnCount := columns.length
    assessedColumns := columns }

end DataQuality

/-! ## Example custom processor
(backend/app/etl/processors/custom/example_custom_processor.py) -/

/-- The `custom_calculation_details` sub-dict built on the success path. -/
structure CustomDetails where
  targetColumn : String
  multiplierUsed : ℚ
  newColumnNamePreview : String
  /-- `processed_series.head().to_dict()`: first five entries of the
  target column times the multiplier (indices left implicit). -/
  sampleResult : List (Option ℚ)
deriving Repr, DecidableEq

/-- The results dict returned by the example custom processor.  Note the
processor reports failures by setting the `error` key of this dict and
returning normally — it never raises. -/
structure CustomResult where
  message : String
  inputRows : Nat
  inputCols : Nat
  error : Option String := none
  info : Option String := none
  details : Option CustomDetails := none
deriving Repr, DecidableEq

namespace ExampleCustomProcessor

/-- `example_custom_processor.process(df, params)`.  (The Python error
messages quote the column name; quotes are elided here.  The name
preview formats the multiplier as Python prints a float; here it is the
rational rendered by `toString`.) -/
def process (df : DataFrame) (params : Params) : CustomResult :=
  let base : CustomResult :=
    { message := "Example custom processor executed successfully."
      inputRows := df.numRows
      inputCols := df.cols.length }
  match params.targetColumn with
  | none =>
      { base with info := some "No target_column specified in parameters for custom calculation." }
  | some c =>
    match df.lookupCol c with
    | none =>
        { base with
            error := some ("Target column " ++ c ++ " not found in DataFrame.")
            message := "Example custom processor failed due to missing target column." }
    | some col =>
      -- float(multiplier), defaulting to 1.0 when absent or not convertible
      let multiplierVal : ℚ :=
        match params.multiplier with
        | none => 1
        | some m => m.toFloat.getD 1
      match col with
      | .numeric vals =>
          { base with
              details := some
                { targetColumn := c
                  multiplierUsed := multiplierVal
                  newColumnNamePreview := c ++ "_multiplied_by_" ++ toString multiplierVal
                  sampleResult := (vals.map (fun v => v.map (· * multiplierVal))).take 5 } }
      | .text _ =>
          { base with
              error := some ("Target column " ++ c ++ " is not numeric and cannot be multiplied.")
              message := "Example custom processor failed due to non-numeric target column." }

end ExampleCustomProcessor

/-! ## Job records and statuses (backend/app/schemas/etl.py,
backend/app/db/models.py) -/

/-- `ProcessingType` enum. -/
inductive ProcessingType where
  | rollingMean
  | peakDetection
  | dataQuality
  | custom
deriving Repr, DecidableEq

/-- `ProcessingStatus` enum.  `processing` is the RUNNING state of the
spec's state machine. -/
inductive ProcessingStatus where
  | pending
  | processing
  | completed
  | failed
deriving Repr, DecidableEq

/-- Terminal states of the job state machine. -/
def ProcessingStatus.isTerminal : ProcessingStatus → Bool
  | .completed => true
  | .failed => true
  | _ => false

/-- Position of a status in the lifecycle order
PENDING → PROCESSING → terminal. -/
def ProcessingStatus.rank : ProcessingStatus → Nat
  | .pending => 0
  | .processing => 1
  | .completed => 2
  | .failed => 2

/-- The JSON `result_data` field of a `ProcessingResult` row, one shape
per branch of `process_data_task` that writes it: the failure handler
stores `{"error": str(e)}`, and each processor branch stores its own
payload shape. -/
inductive ResultData where
  | errorPayload (msg : String)
  | rollingMeanPayload (originalColumns processedColumns : List String) (sampleData : DataFrame)
  | peakPayload (peaks : List Nat)
  | dataQualityPayload (metrics : DataQualityMetrics)
  | customPayload (r : CustomResult)
deriving Repr, DecidableEq

/-- Whether a `result_data` value is the failure handler's error object
`{"error": msg}` (as opposed to a processor result payload). -/
def ResultData.isErrorObject : ResultData → Bool
  | .errorPayload _ => true
  | _ => false

/-- Whether a `result_data` value carries an error detail anywhere:
either it is the failure handler's error object, or it is a custom
processor result whose `error` key is set. -/
def ResultData.hasErrorDetail : ResultData → Bool
  | .errorPayload _ => true
  | .customPayload r => r.error.isSome
  | _ => false

/-- A `ProcessingResult` row (the ProcessingJob record). -/
structure JobRecord where
  dataFileId : Nat
  processingType : ProcessingType
  parameters : Params
  status : ProcessingStatus
  resultData : Option ResultData
deriving Repr, DecidableEq

/-- A `DataFile` row, to the extent the task consumes it. -/
structure DataFileRec where
  filename : String
  s3Path : Option String
deriving Repr, DecidableEq

/-! ## The Celery task `process_data_task` (backend/app/tasks.py) -/

/-- The environment a single task execution observes: the fetched
`ProcessingResult` row, the task arguments, the fetched `DataFile` row,
whether the S3 download materializes the temp file, and the outcome of
`pd.read_csv` on it. -/
structure TaskInput where
  jobRec : Option JobRecord
  dataFileId : Nat
  processingType : ProcessingType
  parameters : Params
  dataFile : Option DataFileRec
  downloadOk : Bool
  csv : Except String DataFrame
deriving Repr

/-- Observable effects of one task execution: the sequence of status
writes committed to the job row (each with the `result_data` it sets, if
any), the final row, whether the temporary local file was created, and
whether it is still on disk. -/
structure TaskRun where
  writes : List (ProcessingStatus × Option ResultData)
  final : Option JobRecord
  tempCreated : Bool
  tempOnDisk : Bool
deriving Repr

/-- The `except Exception` handler of `process_data_task`: the fetched
row is committed with status FAILED and `result_data = {"error": msg}`.
All raise sites occur after the PROCESSING commit. -/
def taskFail (job : JobRecord) (msg : String) (tempC tempD : Bool) : TaskRun :=
  { writes := [(.processing, none), (.failed, some (.errorPayload msg))]
    final := some { job with status := .failed, resultData := some (.errorPayload msg) }
    tempCreated := tempC
    tempOnDisk := tempD }

/-- The success commit of `process_data_task`: status COMPLETED with the
processor payload as `result_data`. -/
def taskComplete (job : JobRecord) (payload : ResultData) (tempC tempD : Bool) : TaskRun :=
  { writes := [(.processing, none), (.completed, some payload)]
    final := some { job with status := .completed, resultData := some payload }
    tempCreated := tempC
    tempOnDisk := tempD }

/-- The `try`/`except` body of `process_data_task`, before the `finally`
block runs.  Translated branch by branch from tasks.py:
1. missing `ProcessingResult` row → return without any status write;
2. commit PROCESSING;
3. missing `DataFile` row, missing `s3_path`, failed download → raise,
   caught by the handler → FAILED;
4. `pd.read_csv` failure → FAILED (the temp file exists at this point);
5. dispatch on processing type.  Note the peak-detection success branch
   of tasks.py evaluates `np.ndarray` although `numpy` is never imported
   there, so it raises `NameError: name np is not defined` and the job
   is committed FAILED (the Python message quotes the name). -/
def taskBody (findPeaks : Column → Except String (List Nat)) (inp : TaskInput) : TaskRun :=
  match inp.jobRec with
  | none => { writes := [], final := none, tempCreated := false, tempOnDisk := false }
  | some job =>
    match inp.dataFile with
    | none => taskFail job ("DataFile " ++ toString inp.dataFileId ++ " not found.") false false
    | some f =>
      match f.s3Path with
      | none =>
          taskFail job ("DataFile " ++ toString inp.dataFileId ++ " has no s3_path for processing.")
            false false
      | some s3p =>
        if inp.downloadOk = false then
          taskFail job ("Failed to download " ++ s3p ++ " from S3.") false false
        else
          match inp.csv with
          | .error m => taskFail job m true true
          | .ok df =>
            match inp.processingType with
            | .rollingMean =>
                let resultDf := RollingMean.process df inp.parameters
                taskComplete job
                  (.rollingMeanPayload df.columnNames resultDf.columnNames (resultDf.takeRows 10))
                  true true
            | .peakDetection =>
                match PeakDetection.process findPeaks df inp.parameters with
                | .error m => taskFail job m true true
                | .ok _peaks => taskFail job "name np is not defined" true true
            | .dataQuality =>
                taskComplete job (.dataQualityPayload (DataQuality.process df inp.parameters))
                  true true
            | .custom =>
                match inp.parameters.customScriptName with
                | none =>
                    taskFail job
                      "Custom processing type selected, but custom_script_name not provided."
                      true true
                | some name =>
                    -- importlib over app.etl.processors.custom: the repository
                    -- ships exactly one custom module, example_custom_processor
                    if name = "example_custom_processor" then
                      taskComplete job
                        (.customPayload (ExampleCustomProcessor.process df
                          { inp.parameters with customScriptName := none }))
                        true true
                    else
                      taskFail job ("Custom script " ++ name ++ ".py not found or module error.")
                        true true

/-- `process_data_task` = the `try`/`except` body followed by the
`finally` block, which removes the temporary local file when it exists. -/
def runTask (findPeaks : Column → Except String (List Nat)) (inp : TaskInput) : TaskRun :=
  let b := taskBody findPeaks inp
  { b with tempOnDisk := if b.tempOnDisk then false else b.tempOnDisk }

/-- The full persisted status history of one submitted job: the
submission endpoint creates the row with status PENDING, then a single
task execution appends its status writes. -/
def jobTrace (findPeaks : Column → Except String (List Nat)) (inp : TaskInput) :
    List ProcessingStatus :=
  ProcessingStatus.pending :: (runTask findPeaks inp).writes.map Prod.fst

/-! ## The submission endpoint `process_data`
(backend/app/api/endpoints/etl.py) -/

/-- The store the endpoint touches: `DataFile` rows and
`ProcessingResult` rows, keyed by id. -/
structure SubmitState where
  dataFiles : List (Nat × DataFileRec)
  jobs : List (Nat × JobRecord)
deriving Repr

/-- The request body of `POST /process`. -/
structure ProcessingRequest where
  dataFileId : Nat
  processingType : ProcessingType
  parameters : Params
deriving Repr

/-- Synchronous outcome of a submission: HTTP 404 (NotFoundError) or the
accepted job id. -/
inductive SubmitOutcome where
  | notFound (detail : String)
  | accepted (jobId : Nat)
deriving Repr, DecidableEq

/-- `process_data(request)`: looks up the referenced `DataFile`; if it
is absent, raises HTTP 404 before any `ProcessingResult` is added; on
success persists a new PENDING job row and dispatches the task once. -/
def processData (st : SubmitState) (req : ProcessingRequest) (newJobId : Nat) :
    SubmitState × SubmitOutcome :=
  match st.dataFiles.lookup req.dataFileId with
  | none =>
      (st, .notFound ("DataFile with ID " ++ toString req.dataFileId ++ " not found."))
  | some _ =>
      let job : JobRecord :=
        { dataFileId := req.dataFileId
          processingType := req.processingType
          parameters := req.parameters
          status := .pending
          resultData := none }
      ({ st with jobs := st.jobs ++ [(newJobId, job)] }, .accepted newJobId)

/-! ## File watcher (backend/app/services/file_watcher.py)

The `DataFileHandler` keeps three pieces of state: the set of already
processed paths, the set of in-flight (scheduled) paths, and a
last-modified timestamp per path.  Filesystem events mutate this state;
each `_schedule_processing` call starts one stabilization thread which,
once the path is quiet, runs `_process_file` and then clears the
in-flight bookkeeping.  Threads for the same path are modelled as firing
sequentially after the event burst (the claims under verification are
about this debouncing discipline, not about Python-level interleavings
inside a single `_process_file` call). -/

/-- Insert into a Python `set` modelled as a duplicate-free list. -/
def insertSet (p : String) (l : List String) : List String :=
  if p ∈ l then l else p :: l

/-- Dict update `d[p] = t` for the last-modified-times map. -/
def updateTime (l : List (String × Nat)) (p : String) (t : Nat) : List (String × Nat) :=
  (p, t) :: l.filter (fun q => q.1 ≠ p)

/-- `DataFileHandler` state. -/
structure WatcherState where
  processedFiles : List String
  processingFiles : List String
  lastModifiedTimes : List (String × Nat)
deriving Repr, DecidableEq

/-- The fresh handler state built in `DataFileHandler.__init__`. -/
def initialWatcherState : WatcherState := ⟨[], [], []⟩

/-- ASCII lowercasing of one character (`str.lower()`; the extensions
and filenames compared by the watcher are ASCII). -/
def asciiLower (c : Char) : Char :=
  if c.toNat ≥ 65 ∧ c.toNat ≤ 90 then Char.ofNat (c.toNat + 32) else c

/-- Split a character list at every occurrence of `sep`
(`str.split(sep)`). -/
def splitChars (sep : Char) : List Char → List (List Char)
  | [] => [[]]
  | c :: cs =>
      let rest := splitChars sep cs
      if c = sep then [] :: rest
      else
        match rest with
        | [] => [[c]]
        | g :: gs => (c :: g) :: gs

/-- `os.path.basename` (the part after the last slash), as characters. -/
def basenameChars (p : String) : List Char :=
  (splitChars '/' p.data).getLastD p.data

/-- The extension part of `os.path.splitext`, as characters: the suffix
starting at the last dot of the basename, provided some non-dot
character precedes it (so dotfiles such as `.csv` have no extension). -/
def extChars (p : String) : List Char :=
  let t := (basenameChars p).dropWhile (fun ch => ch = '.')
  let parts := splitChars '.' t
  if parts.length ≤ 1 then [] else '.' :: parts.getLastD []

/-- `DataFileHandler._is_supported_file`. -/
def isSupportedFile (p : String) : Bool :=
  [".csv", ".xlsx", ".xls", ".txt"].map String.data
    |>.contains ((extChars p).map asciiLower)

/-- Whether `_process_file` applies CSV validation to this path:
`filename.lower().endswith(".csv")`. -/
def isCsvName (p : String) : Bool :=
  ".csv".data.isSuffixOf ((basenameChars p).map asciiLower)

/-- `DataFileHandler._schedule_processing`: mark the path in-flight,
stamp its last-modified time, and start one stabilization thread
(returned flag). -/
def scheduleProcessing (s : WatcherState) (p : String) (t : Nat) : WatcherState × Bool :=
  ({ s with
      processingFiles := insertSet p s.processingFiles
      lastModifiedTimes := updateTime s.lastModifiedTimes p t }, true)

/-- `DataFileHandler.on_created`: directories and unsupported extensions
are ignored; otherwise the path is scheduled (unconditionally). -/
def onCreated (s : WatcherState) (p : String) (isDir : Bool) (t : Nat) : WatcherState × Bool :=
  if isDir then (s, false)
  else if isSupportedFile p = false then (s, false)
  else scheduleProcessing s p t

/-- `DataFileHandler.on_modified`: directories and unsupported
extensions are ignored; otherwise the last-modified time is refreshed
and the path is scheduled only if it is not already in-flight. -/
def onModified (s : WatcherState) (p : String) (isDir : Bool) (t : Nat) : WatcherState × Bool :=
  if isDir then (s, false)
  else if isSupportedFile p = false then (s, false)
  else
    let s1 := { s with lastModifiedTimes := updateTime s.lastModifiedTimes p t }
    if p ∈ s1.processingFiles then (s1, false)
    else scheduleProcessing s1 p t

/-- What the filesystem and the collaborators do when `_process_file`
touches the path: whether the file still exists, its size,
the outcome of `pd.read_csv` (row count, or a parse error), whether the
`shutil.copy2` into the data directory succeeds, and whether the
database insert of the `DataFile` record succeeds. -/
structure FileCtx where
  fsExists : Bool
  sizeBytes : Nat
  csvParse : Except String Nat
  copyOk : Bool
  saveOk : Bool
deriving Repr

/-- The exit taken by one `_process_file` call. -/
inductive ProcessOutcome where
  | alreadyProcessed
  | fileGone
  | emptyFile
  | emptyCsv
  | copyFailed
  | registered
  | registrationFailed
deriving Repr, DecidableEq

/-- Observable result of one `_process_file` call. -/
structure ProcFileResult where
  outcome : ProcessOutcome
  /-- the file was copied into the data directory -/
  copied : Bool
  /-- a DataFileRecord row was inserted (the "file ready" emission) -/
  registeredRecord : Bool
deriving Repr, DecidableEq

/-- `DataFileHandler._process_file`, translated branch by branch:
already-processed guard; existence check; zero-size check; the path is
added to `processed_files`; CSV validation (only for `.csv` names): a
frame with zero rows is skipped by a plain `return`, a parse error is a
warning and processing continues; the copy into the data directory: on
failure a plain `return` (note: this leaves the path in
`processed_files`); finally the record insert, whose failure is caught
by the outer handler, which removes the path from `processed_files`. -/
def processFile (s : WatcherState) (ctx : FileCtx) (p : String) :
    WatcherState × ProcFileResult :=
  if p ∈ s.processedFiles then (s, ⟨.alreadyProcessed, false, false⟩)
  else if ctx.fsExists = false then (s, ⟨.fileGone, false, false⟩)
  else if ctx.sizeBytes = 0 then (s, ⟨.emptyFile, false, false⟩)
  else
    let s1 := { s with processedFiles := insertSet p s.processedFiles }
    let emptyCsvShortCircuit :=
      isCsvName p && (match ctx.csvParse with | .ok rows => rows == 0 | .error _ => false)
    if emptyCsvShortCircuit then (s1, ⟨.emptyCsv, false, false⟩)
    else if ctx.copyOk = false then (s1, ⟨.copyFailed, false, false⟩)
    else if ctx.saveOk then (s1, ⟨.registered, true, true⟩)
    else
      ({ s1 with processedFiles := s1.processedFiles.filter (fun q => q ≠ p) },
       ⟨.registrationFailed, true, false⟩)

/-- `DataFileHandler._wait_and_process` after the stabilization wait:
run `_process_file`, then (in its `finally`) discard the path from the
in-flight set and delete its last-modified entry. -/
def waitAndProcess (s : WatcherState) (ctx : FileCtx) (p : String) :
    WatcherState × ProcFileResult :=
  let (s1, r) := processFile s ctx p
  ({ s1 with
      processingFiles := s1.processingFiles.filter (fun q => q ≠ p)
      lastModifiedTimes := s1.lastModifiedTimes.filter (fun q => q.1 ≠ p) }, r)

/-- A raw filesystem event on a single watched path. -/
inductive WatchEvent where
  | created (t : Nat)
  | modified (t : Nat)
deriving Repr, DecidableEq

/-- Whether an event is a modify event. -/
def WatchEvent.isModified : WatchEvent → Bool
  | .modified _ => true
  | .created _ => false

/-- Deliver one event for path `p` to the handler. -/
def stepEvent (s : WatcherState) (p : String) : WatchEvent → WatcherState × Bool
  | .created t => onCreated s p false t
  | .modified t => onModified s p false t

/-- Deliver a burst of events for path `p`, counting how many
stabilization threads get started. -/
def runEvents (s : WatcherState) (p : String) : List WatchEvent → WatcherState × Nat
  | [] => (s, 0)
  | ev :: rest =>
      let (s1, started) := stepEvent s p ev
      let (s2, n) := runEvents s1 p rest
      (s2, (if started then 1 else 0) + n)

/-- Fire `n` stabilization threads for path `p` sequentially (each runs
`_wait_and_process`), counting how many of them register a
DataFileRecord. -/
def fireThreads (s : WatcherState) (ctx : FileCtx) (p : String) : Nat → WatcherState × Nat
  | 0 => (s, 0)
  | n + 1 =>
      let (s1, r) := waitAndProcess s ctx p
      let (s2, k) := fireThreads s1 ctx p n
      (s2, (if r.registeredRecord then 1 else 0) + k)

/-! ## Concrete fixtures used by the claim theorems -/

/-- A concrete stand-in for `scipy.signal.find_peaks` (never reached by
the error paths under verification). -/
def fp0 : Column → Except String (List Nat) := fun _ => Except.ok []

/-- The single numeric input column `[1,2,3,4,5]` of the rolling-mean
scenario. -/
def c2Input : DataFrame :=
  ⟨[("value", Column.numeric [some 1, some 2, some 3, some 4, some 5])]⟩

/-- The output series the spec scenario (and the repository's own test
`test_rolling_mean_multiple_columns`) expects for window 3: centered
windows with a minimum of one sample. -/
def c2ClaimedSeries : List (Option ℚ) :=
  [some (3 / 2), some 2, some 3, some 4, some (9 / 2)]

/-- The collaborator behavior in the C6/C7 scenarios: a healthy,
non-empty, well-formed CSV whose copy into the data directory succeeds
(C7 overrides `copyOk`). -/
def c7Ctx : FileCtx :=
  { fsExists := true, sizeBytes := 10, csvParse := .ok 3, copyOk := true, saveOk := true }

/-- A fixture for C8: a rolling-mean job whose execution succeeds
end-to-end (download ok, CSV parses), so the temp file genuinely exists
when the `try` body finishes. -/
def c8OkInput : TaskInput :=
  { jobRec := some ⟨1, .rollingMean, { windowSize := some 2 }, .pending, none⟩
    dataFileId := 1
    processingType := .rollingMean
    parameters := { windowSize := some 2 }
    dataFile := some ⟨"a.csv", some "raw/1/a.csv"⟩
    downloadOk := true
    csv := .ok ⟨[("value", Column.numeric [some 1, some 2])]⟩ }

/-- A fixture for C8: the same job but the downloaded file fails CSV
parsing, so the task raises with the temp file on disk. -/
def c8ErrInput : TaskInput :=
  { c8OkInput with csv := .error "ParserError: bad line" }

/-- Every task execution has one of three shapes: no status write at all
(the job row was missing), PROCESSING followed by a FAILED commit whose
`result_data` is the error object, or PROCESSING followed by a COMPLETED
commit whose `result_data` is a processor payload (not the error
object). -/
def TaskRunShape (r : TaskRun) : Prop :=
  (r.writes = [] ∧ r.final = none) ∨
  (∃ m job, r.writes = [(.processing, none), (.failed, some (.errorPayload m))] ∧
    r.final = some job ∧ job.status = .failed ∧ job.resultData = some (.errorPayload m)) ∨
  (∃ p job, r.writes = [(.processing, none), (.completed, some p)] ∧
    r.final = some job ∧ job.status = .completed ∧ job.resultData = some p ∧
    p.isErrorObject = false)

/-- A fixture for the C5 counterexample: a custom-processor job whose
parameters name a target column absent from the dataset. -/
def c5Input : TaskInput :=
  { jobRec := some ⟨2, .custom,
      { customScriptName := some "example_custom_processor", targetColumn := some "ghost" },
      .pending, none⟩
    dataFileId := 2
    processingType := .custom
    parameters :=
      { customScriptName := some "example_custom_processor", targetColumn := some "ghost" }
    dataFile := some ⟨"a.csv", some "raw/2/a.csv"⟩
    downloadOk := true
    csv := .ok ⟨[("col_a", Column.numeric [some 1, some 2, some 3])]⟩ }

/-- The final record of the concrete failed run used as C5 witness. -/
def c5WitJob : JobRecord :=
  ⟨1, .rollingMean, {}, .failed,
    some (.errorPayload ("DataFile " ++ toString 1 ++ " not found."))⟩

/-- A fixture for the C4 counterexample: a rolling-mean job whose
parameters name a column absent from the dataset. -/
def c4Input : TaskInput :=
  { jobRec := some ⟨4, .rollingMean,
      { windowSize := some 2, columns := some ["ghost"] }, .pending, none⟩
    dataFileId := 4
    processingType := .rollingMean
    parameters := { windowSize := some 2, columns := some ["ghost"] }
    dataFile := some ⟨"c.csv", some "raw/4/c.csv"⟩
    downloadOk := true
    csv := .ok ⟨[("value", Column.numeric [some 1, some 2, some 3])]⟩ }

/-- Concrete dataset for the C4 witness. -/
def c4wDf : DataFrame := ⟨[("value", Column.numeric [some 1, some 2, some 3])]⟩

/-- Concrete peak-detection fixture for the C4 witness. -/
def c4wInput : TaskInput :=
  { jobRec := some ⟨3, .peakDetection, { column := some "ghost" }, .pending, none⟩
    dataFileId := 3
    processingType := .peakDetection
    parameters := { column := some "ghost" }
    dataFile := some ⟨"b.csv", some "raw/3/b.csv"⟩
    downloadOk := true
    csv := .ok c4wDf }

/-! ## Main claim theorems -/

/-- **C2** (code_bug evidence).  On the single numeric column
`[1,2,3,4,5]` with `window_size = 3`, the rolling-mean processor as
written produces the trailing-window series `[NaN, NaN, 2, 3, 4]` under
the name `value_rolling_mean` — not the centered min-one-sample series
`[1.5, 2, 3, 4, 4.5]` that the spec scenario and the repository's own
test suite state, and not under the test suite's expected column name
`value_rolling_mean_3`. -/
theorem C2_rolling_mean_code_behavior :
    (RollingMean.process c2Input { windowSize := some 3 }).lookupCol "value_rolling_mean"
      = some (Column.numeric [none, none, some 2, some 3, some 4]) ∧
    (RollingMean.process c2Input { windowSize := some 3 }).lookupCol "value_rolling_mean"
      ≠ some (Column.numeric c2ClaimedSeries) ∧
    (RollingMean.process c2Input { windowSize := some 3 }).lookupCol "value_rolling_mean_3"
      = none := by
  refine ⟨of_decide_eq_true (by with_unfolding_all rfl), ?_,
    of_decide_eq_true (by with_unfolding_all rfl)⟩
  exact of_decide_eq_false (by with_unfolding_all rfl)

/-- **C7** (code_bug evidence).  When the storage copy of a stable file
fails, `_process_file` returns from inside the inner `try` without
reaching the outer handler that removes the path from
`processed_files`.  The path therefore stays in the already-processed
set, and a later modify event on the same path — although it is accepted
and schedules a new stabilization thread — hits the already-processed
guard and never retries ingestion, even when the copy would now
succeed. -/
theorem C7_copy_failure_blocks_retry :
    ((waitAndProcess (runEvents initialWatcherState "data.csv" [.modified 0]).1
        { c7Ctx with copyOk := false } "data.csv").2.outcome = ProcessOutcome.copyFailed ∧
     (waitAndProcess (runEvents initialWatcherState "data.csv" [.modified 0]).1
        { c7Ctx with copyOk := false } "data.csv").2.registeredRecord = false) ∧
    ("data.csv" ∈ (waitAndProcess (runEvents initialWatcherState "data.csv" [.modified 0]).1
        { c7Ctx with copyOk := false } "data.csv").1.processedFiles ∧
     "data.csv" ∉ (waitAndProcess (runEvents initialWatcherState "data.csv" [.modified 0]).1
        { c7Ctx with copyOk := false } "data.csv").1.processingFiles) ∧
    ((onModified (waitAndProcess (runEvents initialWatcherState "data.csv" [.modified 0]).1
        { c7Ctx with copyOk := false } "data.csv").1 "data.csv" false 100).2 = true ∧
     (waitAndProcess
        (onModified (waitAndProcess (runEvents initialWatcherState "data.csv" [.modified 0]).1
          { c7Ctx with copyOk := false } "data.csv").1 "data.csv" false 100).1
        c7Ctx "data.csv").2
      = ⟨ProcessOutcome.alreadyProcessed, false, false⟩) := by
  exact of_decide_eq_true (by with_unfolding_all rfl)

/-- `_process_file` on a fresh path whose file exists, is non-empty,
does not parse to a zero-row CSV, and whose copy and record insert both
succeed: the path is marked processed and a DataFileRecord is
registered. -/
theorem processFile_fresh_good (s : WatcherState) (ctx : FileCtx) (p : String)
    (hp : p ∉ s.processedFiles) (hex : ctx.fsExists = true) (hsz : ctx.sizeBytes ≠ 0)
    (hcsv : ctx.csvParse ≠ Except.ok 0) (hcopy : ctx.copyOk = true) (hsave : ctx.saveOk = true) :
    processFile s ctx p =
      ({ s with processedFiles := insertSet p s.processedFiles },
       ⟨.registered, true, true⟩) := by
  have hshort :
      (isCsvName p &&
        (match ctx.csvParse with | .ok rows => rows == 0 | .error _ => false)) = false := by
    rcases hparse : ctx.csvParse with m | rows
    · simp
    · have hr : rows ≠ 0 := by
        intro h0
        exact hcsv (by rw [hparse, h0])
      simp [hr]
  simp [processFile, hp, hex, hsz, hcopy, hsave, hshort]

/-- **C9**.  A non-empty file whose content fails CSV validation (the
parser rejects it) is still ingested: the validation failure is only a
warning, the file is copied and a DataFileRecord is registered. -/
theorem C9_malformed_csv_emission_proceeds (s : WatcherState) (ctx : FileCtx) (p msg : String)
    (hp : p ∉ s.processedFiles) (hex : ctx.fsExists = true) (hsz : ctx.sizeBytes ≠ 0)
    (hparse : ctx.csvParse = Except.error msg) (hcopy : ctx.copyOk = true)
    (hsave : ctx.saveOk = true) :
    processFile s ctx p =
      ({ s with processedFiles := insertSet p s.processedFiles },
       ⟨.registered, true, true⟩) := by
  refine processFile_fresh_good s ctx p hp hex hsz ?_ hcopy hsave
  rw [hparse]
  intro h
  cases h

/-- **C9 witness**: a concrete malformed, non-empty `.csv` file is
registered despite the parse failure. -/
theorem C9_malformed_csv_emission_proceeds_witness :
    processFile initialWatcherState
        { fsExists := true, sizeBytes := 42,
          csvParse := .error "ParserError: bad line", copyOk := true, saveOk := true }
        "bad.csv"
      = ({ initialWatcherState with processedFiles := ["bad.csv"] },
         ⟨.registered, true, true⟩) := by
  have h := C9_malformed_csv_emission_proceeds initialWatcherState
    { fsExists := true, sizeBytes := 42,
      csvParse := .error "ParserError: bad line", copyOk := true, saveOk := true }
    "bad.csv" "ParserError: bad line" (by decide) rfl (by decide) rfl rfl rfl
  exact h

/-- **C10** (implicit claim).  A CSV file that parses successfully but
has zero data rows — a header-only file, which has non-zero size on
disk — is silently skipped at stabilization time: `_process_file`
returns without copying the file and without registering a
DataFileRecord. -/
theorem C10_header_only_csv_silently_skipped (s : WatcherState) (ctx : FileCtx) (p : String)
    (hname : isCsvName p = true) (hp : p ∉ s.processedFiles) (hex : ctx.fsExists = true)
    (hsz : ctx.sizeBytes ≠ 0) (hparse : ctx.csvParse = Except.ok 0) :
    (processFile s ctx p).2 = ⟨.emptyCsv, false, false⟩ := by
  have hshort :
      (isCsvName p &&
        (match ctx.csvParse with | .ok rows => rows == 0 | .error _ => false)) = true := by
    rw [hparse, hname]
    simp
  simp [processFile, hp, hex, hsz, hshort]

/-- **C10 witness**: a concrete 20-byte header-only CSV is skipped. -/
theorem C10_header_only_csv_silently_skipped_witness :
    (processFile initialWatcherState
        { fsExists := true, sizeBytes := 20, csvParse := .ok 0, copyOk := true, saveOk := true }
        "header_only.csv").2
      = ⟨.emptyCsv, false, false⟩ :=
  C10_header_only_csv_silently_skipped initialWatcherState
    { fsExists := true, sizeBytes := 20, csvParse := .ok 0, copyOk := true, saveOk := true }
    "header_only.csv" (by decide) (by decide) rfl (by decide) rfl

/-- **C3**.  A submission referencing a `data_file_id` with no
`DataFile` row fails synchronously with the 404 NotFoundError, and the
store is returned unchanged — in particular no `ProcessingResult` row is
created. -/
theorem C3_missing_datafile_no_job_created (st : SubmitState) (req : ProcessingRequest)
    (newJobId : Nat) (h : st.dataFiles.lookup req.dataFileId = none) :
    processData st req newJobId =
      (st, .notFound ("DataFile with ID " ++ toString req.dataFileId ++ " not found.")) := by
  unfold processData
  rw [h]

/-- **C3 witness**: a concrete submission against an empty store. -/
theorem C3_missing_datafile_no_job_created_witness :
    processData ⟨[], []⟩ ⟨7, .rollingMean, {}⟩ 0 =
      (⟨[], []⟩, .notFound ("DataFile with ID " ++ toString 7 ++ " not found.")) :=
  C3_missing_datafile_no_job_created ⟨[], []⟩ ⟨7, .rollingMean, {}⟩ 0 rfl

/-- **C8**.  The temporary local materialization of the source data is
always removed by the `finally` block: after any task execution the temp
file is gone, and this cleanup is not vacuous — on both a successful run
and a run that raises mid-processing, the temp file is still on disk
when the `try` body finishes, and the final statuses of those two runs
are COMPLETED and FAILED respectively. -/
theorem C8_temp_file_always_removed :
    (∀ (findPeaks : Column → Except String (List Nat)) (inp : TaskInput),
        (runTask findPeaks inp).tempOnDisk = false) ∧
    ((taskBody fp0 c8OkInput).tempOnDisk = true ∧
      (taskBody fp0 c8OkInput).final.map JobRecord.status = some .completed) ∧
    ((taskBody fp0 c8ErrInput).tempOnDisk = true ∧
      (taskBody fp0 c8ErrInput).final.map JobRecord.status = some .failed) := by
  refine ⟨fun findPeaks inp => ?_, ⟨?_, ?_⟩, ⟨?_, ?_⟩⟩
  · show (if (taskBody findPeaks inp).tempOnDisk then false
      else (taskBody findPeaks inp).tempOnDisk) = false
    cases h : (taskBody findPeaks inp).tempOnDisk <;> simp
  · exact of_decide_eq_true (by with_unfolding_all rfl)
  · exact of_decide_eq_true (by with_unfolding_all rfl)
  · exact of_decide_eq_true (by with_unfolding_all rfl)
  · exact of_decide_eq_true (by with_unfolding_all rfl)

/-! ## Shape of a task execution (shared by the C1 and C5 theorems) -/

theorem shape_taskFail {job : JobRecord} {m : String} {tc td : Bool} :
    TaskRunShape (taskFail job m tc td) :=
  Or.inr (Or.inl ⟨m, _, rfl, rfl, rfl, rfl⟩)

theorem shape_taskComplete {job : JobRecord} {p : ResultData} {tc td : Bool}
    (h : p.isErrorObject = false) : TaskRunShape (taskComplete job p tc td) :=
  Or.inr (Or.inr ⟨p, _, rfl, rfl, rfl, rfl, h⟩)

/-- Case analysis over every control path of `process_data_task`. -/
theorem taskBody_cases (findPeaks : Column → Except String (List Nat)) (inp : TaskInput) :
    TaskRunShape (taskBody findPeaks inp) := by
  unfold taskBody
  repeat' split
  all_goals
    first
      | exact Or.inl ⟨rfl, rfl⟩
      | exact shape_taskFail
      | exact shape_taskComplete rfl

/-- **C1**.  The persisted status history of a submitted job — PENDING
at creation, followed by the commits of its single task execution — is a
subsequence of PENDING, PROCESSING, COMPLETED or of PENDING, PROCESSING,
FAILED, and it is strictly increasing in lifecycle rank, so once a
terminal status is persisted no later write moves the job back to
PENDING or PROCESSING. -/
theorem C1_status_history_monotone (findPeaks : Column → Except String (List Nat))
    (inp : TaskInput) :
    (List.Sublist (jobTrace findPeaks inp)
        [ProcessingStatus.pending, .processing, .completed] ∨
     List.Sublist (jobTrace findPeaks inp)
        [ProcessingStatus.pending, .processing, .failed]) ∧
    List.Pairwise (fun a b => a.rank < b.rank) (jobTrace findPeaks inp) := by
  have hw : (runTask findPeaks inp).writes = (taskBody findPeaks inp).writes := rfl
  have h := taskBody_cases findPeaks inp
  unfold jobTrace
  rw [hw]
  rcases h with ⟨h1, _⟩ | ⟨m, job, h1, _⟩ | ⟨p, job, h1, _⟩ <;> rw [h1]
  · exact ⟨by decide, by decide⟩
  · rw [show ProcessingStatus.pending ::
        List.map Prod.fst [(ProcessingStatus.processing, (none : Option ResultData)),
          (ProcessingStatus.failed, some (ResultData.errorPayload m))]
        = [ProcessingStatus.pending, .processing, .failed] from rfl]
    exact ⟨by decide, by decide⟩
  · rw [show ProcessingStatus.pending ::
        List.map Prod.fst [(ProcessingStatus.processing, (none : Option ResultData)),
          (ProcessingStatus.completed, some p)]
        = [ProcessingStatus.pending, .processing, .completed] from rfl]
    exact ⟨by decide, by decide⟩

/-- **C5 counterexample**.  A custom-processor job whose parameters name
a missing target column ends COMPLETED, yet its result payload embeds an
error detail (the processor reports the missing column inside its result
dict instead of raising) — so a COMPLETED job does not carry "only the
result payload (no error detail)". -/
theorem C5_completed_job_with_embedded_error :
    ((runTask fp0 c5Input).final.map
        (fun j => (j.status, j.resultData.map ResultData.hasErrorDetail)))
      = some (ProcessingStatus.completed, some true) := by
  exact of_decide_eq_true (by with_unfolding_all rfl)

/-- **C5 (amended)**.  At the level of the task's own commits, result
and error are exclusive in terminal states: a job that ends FAILED
carries exactly the error object `{"error": msg}` as its payload, and a
job that ends COMPLETED carries a processor result payload, never the
error object.  (As the counterexample shows, the processor result of a
COMPLETED custom job may itself embed an error detail.) -/
theorem C5_terminal_fields_exclusive (findPeaks : Column → Except String (List Nat))
    (inp : TaskInput) (job : JobRecord)
    (hfin : (runTask findPeaks inp).final = some job) :
    (job.status = .failed →
      ∃ m, job.resultData = some (.errorPayload m)) ∧
    (job.status = .completed →
      ∃ p, job.resultData = some p ∧ p.isErrorObject = false) := by
  have hf : (runTask findPeaks inp).final = (taskBody findPeaks inp).final := rfl
  rw [hf] at hfin
  rcases taskBody_cases findPeaks inp with ⟨_, h2⟩ | ⟨m, j, _, h2, h3, h4⟩
      | ⟨p, j, _, h2, h3, h4, h5⟩
  · rw [h2] at hfin
    cases hfin
  · rw [h2] at hfin
    cases hfin
    constructor
    · intro _
      exact ⟨m, h4⟩
    · intro hc
      rw [h3] at hc
      cases hc
  · rw [h2] at hfin
    cases hfin
    constructor
    · intro hc
      rw [h3] at hc
      cases hc
    · intro _
      exact ⟨p, h4, h5⟩

/-- **C5 (amended) witness**: the exclusivity instantiated at a concrete
failed run (missing `DataFile` row). -/
theorem C5_terminal_fields_exclusive_witness :
    (c5WitJob.status = .failed → ∃ m, c5WitJob.resultData = some (.errorPayload m)) ∧
    (c5WitJob.status = .completed →
      ∃ p, c5WitJob.resultData = some p ∧ p.isErrorObject = false) :=
  C5_terminal_fields_exclusive fp0
    { jobRec := some ⟨1, .rollingMean, {}, .pending, none⟩
      dataFileId := 1
      processingType := .rollingMean
      parameters := {}
      dataFile := none
      downloadOk := true
      csv := .error "unused" }
    c5WitJob rfl

/-! ## C4: missing target column -/

/-- **C4 counterexample**.  A rolling-mean job whose parameters name a
column absent from the dataset does not fail hard: the processor skips
the missing column silently and the job ends COMPLETED — contradicting
the claim that every processor fails hard on a missing target column and
the job never reaches COMPLETED. -/
theorem C4_rolling_mean_missing_column_completes :
    (runTask fp0 c4Input).final.map JobRecord.status = some ProcessingStatus.completed := by
  exact of_decide_eq_true (by with_unfolding_all rfl)

/-- **C4 (amended)**.  Only the peak-detection processor fails hard on a
missing target column: when its `column` parameter names a column absent
from the dataset, the processor raises an error naming the column, the
job is committed FAILED with that message, and COMPLETED never appears
in the job's status history.  The rolling-mean processor, by contrast,
silently skips parameter columns that do not exist (such a job can
complete, as the counterexample shows). -/
theorem C4_peak_missing_column_fails_hard
    (findPeaks : Column → Except String (List Nat)) (inp : TaskInput) (df : DataFrame)
    (c : String) (j : JobRecord) (f : DataFileRec) (s3p : String)
    (htype : inp.processingType = .peakDetection)
    (hcol : inp.parameters.column = some c)
    (hmiss : df.lookupCol c = none)
    (hjob : inp.jobRec = some j) (hfile : inp.dataFile = some f) (hs3 : f.s3Path = some s3p)
    (hdl : inp.downloadOk = true) (hcsv : inp.csv = .ok df) :
    PeakDetection.process findPeaks df inp.parameters
      = .error ("Column " ++ c ++ " not found in the dataframe") ∧
    (runTask findPeaks inp).final.map JobRecord.status = some ProcessingStatus.failed ∧
    (runTask findPeaks inp).final.map JobRecord.resultData
      = some (some (.errorPayload ("Column " ++ c ++ " not found in the dataframe"))) ∧
    ProcessingStatus.completed ∉ jobTrace findPeaks inp ∧
    (∀ (df2 : DataFrame) (w : Option Nat) (cs : List String),
      (∀ c2 ∈ cs, df2.lookupCol c2 = none) →
      RollingMean.process df2 { windowSize := w, columns := some cs } = df2) := by
  have hpd : PeakDetection.process findPeaks df inp.parameters
      = .error ("Column " ++ c ++ " not found in the dataframe") := by
    simp [PeakDetection.process, hcol, hmiss]
  have hbody : taskBody findPeaks inp
      = taskFail j ("Column " ++ c ++ " not found in the dataframe") true true := by
    unfold taskBody
    rw [hjob, hfile]
    simp [hs3, hcsv, htype, hdl, hpd]
  refine ⟨hpd, ?_, ?_, ?_, ?_⟩
  · show ((taskBody findPeaks inp).final).map JobRecord.status = _
    rw [hbody]
    rfl
  · show ((taskBody findPeaks inp).final).map JobRecord.resultData = _
    rw [hbody]
    rfl
  · show ProcessingStatus.completed ∉
      ProcessingStatus.pending :: (taskBody findPeaks inp).writes.map Prod.fst
    rw [hbody]
    rw [show ProcessingStatus.pending ::
        (taskFail j ("Column " ++ c ++ " not found in the dataframe") true true).writes.map
          Prod.fst
        = [ProcessingStatus.pending, .processing, .failed] from rfl]
    decide
  · intro df2 w cs hskip
    unfold RollingMean.process
    have hnil : (cs.filterMap (fun col =>
        match df2.lookupCol col with
        | some (.numeric vals) =>
            some (col ++ "_rolling_mean",
              Column.numeric (rollingTrailingMean (w.getD 5) vals))
        | _ => none)) = [] := by
      rw [List.filterMap_eq_nil_iff]
      intro a ha
      rw [hskip a ha]
    simp only [Option.getD_some, hnil, List.append_nil]

/-- **C4 (amended) witness**: the concrete missing-column peak-detection
job fails with a message naming the column, and the rolling-mean
processor leaves the same frame untouched when given the same missing
column. -/
theorem C4_peak_missing_column_fails_hard_witness :
    PeakDetection.process fp0 c4wDf { column := some "ghost" }
      = .error ("Column " ++ "ghost" ++ " not found in the dataframe") ∧
    ProcessingStatus.completed ∉ jobTrace fp0 c4wInput ∧
    RollingMean.process c4wDf { windowSize := some 2, columns := some ["ghost"] } = c4wDf := by
  have h := C4_peak_missing_column_fails_hard fp0 c4wInput c4wDf "ghost"
    ⟨3, .peakDetection, { column := some "ghost" }, .pending, none⟩
    ⟨"b.csv", some "raw/3/b.csv"⟩ "raw/3/b.csv"
    rfl rfl (by decide) rfl rfl rfl rfl rfl
  exact ⟨h.1, h.2.2.2.1, h.2.2.2.2 c4wDf (some 2) ["ghost"] (by decide)⟩

/-! ## C6: debouncing of event bursts -/

/-- A modify event for a supported path already in flight only refreshes
the last-seen timestamp; it does not schedule another thread. -/
theorem onModified_inflight (s : WatcherState) (p : String) (t : Nat)
    (hsup : isSupportedFile p = true) (hin : p ∈ s.processingFiles) :
    onModified s p false t =
      ({ s with lastModifiedTimes := updateTime s.lastModifiedTimes p t }, false) := by
  simp [onModified, hsup, hin]

/-- Delivering any all-modify burst to a handler whose path is already
in flight starts no thread and leaves both tracking sets unchanged. -/
theorem runEvents_inflight (p : String) (evs : List WatchEvent) :
    ∀ s : WatcherState, (∀ ev ∈ evs, ev.isModified = true) → p ∈ s.processingFiles →
      (runEvents s p evs).2 = 0 ∧
      (runEvents s p evs).1.processedFiles = s.processedFiles ∧
      (runEvents s p evs).1.processingFiles = s.processingFiles := by
  induction evs with
  | nil =>
      intro s _ _
      exact ⟨rfl, rfl, rfl⟩
  | cons ev rest ih =>
      intro s hmod hin
      have hrest : ∀ ev2 ∈ rest, ev2.isModified = true :=
        fun ev2 h2 => hmod ev2 (List.mem_cons_of_mem _ h2)
      cases ev with
      | created t =>
          have hc := hmod _ (List.mem_cons_self _ _)
          simp [WatchEvent.isModified] at hc
      | modified t =>
          by_cases hsup : isSupportedFile p
          · have hstep : stepEvent s p (.modified t) =
                ({ s with lastModifiedTimes := updateTime s.lastModifiedTimes p t }, false) := by
              simpa [stepEvent] using onModified_inflight s p t hsup hin
            have ih' := ih { s with lastModifiedTimes := updateTime s.lastModifiedTimes p t }
              hrest hin
            simpa [runEvents, hstep] using ih'
          · have hstep : stepEvent s p (.modified t) = (s, false) := by
              simp [stepEvent, onModified, hsup]
            have ih' := ih s hrest hin
            simpa [runEvents, hstep] using ih'

/-- The first event of a burst on a fresh supported path always
schedules exactly one thread, marks the path in flight, and leaves the
already-processed set untouched. -/
theorem stepEvent_fresh (s : WatcherState) (p : String) (e0 : WatchEvent)
    (hsup : isSupportedFile p = true) (hfly : p ∉ s.processingFiles) :
    (stepEvent s p e0).2 = true ∧
    p ∈ (stepEvent s p e0).1.processingFiles ∧
    (stepEvent s p e0).1.processedFiles = s.processedFiles := by
  cases e0 with
  | created t =>
      refine ⟨by simp [stepEvent, onCreated, scheduleProcessing, hsup], ?_, ?_⟩
      · simp [stepEvent, onCreated, scheduleProcessing, hsup, insertSet, hfly]
      · simp [stepEvent, onCreated, scheduleProcessing, hsup]
  | modified t =>
      refine ⟨by simp [stepEvent, onModified, scheduleProcessing, hsup, hfly], ?_, ?_⟩
      · simp [stepEvent, onModified, scheduleProcessing, hsup, hfly, insertSet]
      · simp [stepEvent, onModified, scheduleProcessing, hsup, hfly]

/-- **C6**.  For a burst of rapid events on one supported path — a first
create or modify event followed by any number of modify events within
the quiet interval — starting from a state in which the path is neither
processed nor in flight: exactly one stabilization thread is started,
and firing the started threads after the burst produces exactly one
"file ready" emission (one DataFileRecord registration) for that path;
moreover a modify event for a path already in flight only refreshes the
last-seen timestamp and never reschedules. -/
theorem C6_burst_single_emission (s : WatcherState) (p : String) (ctx : FileCtx)
    (e0 : WatchEvent) (rest : List WatchEvent)
    (hsup : isSupportedFile p = true)
    (hproc0 : p ∉ s.processedFiles) (hfly0 : p ∉ s.processingFiles)
    (hrest : ∀ ev ∈ rest, ev.isModified = true)
    (hex : ctx.fsExists = true) (hsz : ctx.sizeBytes ≠ 0)
    (hcsv : ctx.csvParse ≠ Except.ok 0) (hcopy : ctx.copyOk = true) (hsave : ctx.saveOk = true) :
    (runEvents s p (e0 :: rest)).2 = 1 ∧
    (fireThreads (runEvents s p (e0 :: rest)).1 ctx p (runEvents s p (e0 :: rest)).2).2 = 1 ∧
    (∀ (s2 : WatcherState) (t : Nat), p ∈ s2.processingFiles →
      onModified s2 p false t =
        ({ s2 with lastModifiedTimes := updateTime s2.lastModifiedTimes p t }, false)) := by
  obtain ⟨hst, hin1, hkeep1⟩ := stepEvent_fresh s p e0 hsup hfly0
  rcases hse : stepEvent s p e0 with ⟨s1, st1⟩
  rw [hse] at hst hin1 hkeep1
  obtain ⟨hn, hkeep2, _⟩ := runEvents_inflight p rest s1 hrest hin1
  rcases hre : runEvents s1 p rest with ⟨s2, n⟩
  rw [hre] at hn hkeep2
  have hcons : runEvents s p (e0 :: rest) = (s2, 1) := by
    simp [runEvents, hse, hre, hst, hn]
  have hproc2 : p ∉ s2.processedFiles := by
    rw [hkeep2, hkeep1]
    exact hproc0
  have hwp : waitAndProcess s2 ctx p =
      ({ processedFiles := insertSet p s2.processedFiles
         processingFiles := s2.processingFiles.filter (fun q => q ≠ p)
         lastModifiedTimes := s2.lastModifiedTimes.filter (fun q => q.1 ≠ p) },
       ⟨.registered, true, true⟩) := by
    unfold waitAndProcess
    rw [processFile_fresh_good s2 ctx p hproc2 hex hsz hcsv hcopy hsave]
  refine ⟨by rw [hcons], ?_, ?_⟩
  · rw [hcons]
    show (fireThreads s2 ctx p 1).2 = 1
    simp [fireThreads, hwp]
  · intro s2' t hin
    exact onModified_inflight s2' p t hsup hin

/-- **C6 witness**: a concrete burst — a create followed by two rapid
modify events on `data.csv` — starts exactly one thread and yields
exactly one registration; a modify event while in flight only refreshes
the timestamp. -/
theorem C6_burst_single_emission_witness :
    (runEvents initialWatcherState "data.csv"
        [.created 0, .modified 1, .modified 1]).2 = 1 ∧
    (fireThreads
        (runEvents initialWatcherState "data.csv" [.created 0, .modified 1, .modified 1]).1
        c7Ctx "data.csv"
        (runEvents initialWatcherState "data.csv"
          [.created 0, .modified 1, .modified 1]).2).2 = 1 ∧
    onModified ⟨[], ["data.csv"], []⟩ "data.csv" false 9
      = (⟨[], ["data.csv"], [("data.csv", 9)]⟩, false) := by
  have h := C6_burst_single_emission initialWatcherState "data.csv" c7Ctx
    (.created 0) [.modified 1, .modified 1]
    (by decide) (by decide) (by decide) (by decide) rfl (by decide)
    (by intro h; simp [c7Ctx] at h) rfl rfl
  exact ⟨h.1, h.2.1, h.2.2 ⟨[], ["data.csv"], []⟩ 9 (by decide)⟩

end DataMicroservice
